import Mathlib

/-
Shallow embedding of the Metadata Query Creator node
(`src/nodes/query_creator.py` of the mdh-knime-extension repository):
the filter-slot registry, the `f<digits>` reference scan over the filter
logic, and the `configure` / `execute` phases that validate the logic and
assemble the query descriptor.
-/

namespace MdHQueryCreator

/-- Python `str.startswith(pre)`, on the underlying character lists. -/
def pyStartsWith (s pre : String) : Bool :=
  pre.data.isPrefixOf s.data

/-- Numeric value of a decimal digit character. -/
def digitVal (c : Char) : Nat := c.toNat - 48

/-- Natural number denoted by a list of decimal digit characters. -/
def digitsToNat (l : List Char) : Nat :=
  l.foldl (fun acc c => acc * 10 + digitVal c) 0

/-- Python `int(s)`: strip surrounding whitespace, allow an optional sign,
then require a non-empty run of decimal digits; `none` models a raised
`ValueError`.  `_get_filters` discards the parsed value (the call sits under
`contextlib.suppress(ValueError)`), so only the call site matters there. -/
def pyIntParse (s : String) : Option Int :=
  let t := s.trim
  let neg := pyStartsWith t "-"
  let core := if neg || pyStartsWith t "+" then t.drop 1 else t
  if core.data ≠ [] ∧ ∀ c ∈ core.data, c.isDigit then
    some (if neg then -(digitsToNat core.data : Int) else (digitsToNat core.data : Int))
  else
    none

/-- Python `re.findall(r'f\d+', s)` on the character list of `s`: scan left to
right; at a position holding `f` followed by at least one digit, emit the
maximal match (`f` plus the digit run) and resume after it; otherwise advance
one character.  The fuel argument bounds the recursion by the length of the
remaining input; each step consumes at least one character, so fuel equal to
the input length is always enough. -/
def findFilterMatchesF : Nat → List Char → List String
  | 0, _ => []
  | _, [] => []
  | fuel + 1, c :: rest =>
    if c = 'f' then
      if rest.takeWhile Char.isDigit = [] then
        findFilterMatchesF fuel rest
      else
        ('f' :: rest.takeWhile Char.isDigit).asString ::
          findFilterMatchesF fuel (rest.dropWhile Char.isDigit)
    else
      findFilterMatchesF fuel rest

/-- `re.findall(MetadataQueryCreatorNode._RE_FILTER_MATCHES, s)` with
`_RE_FILTER_MATCHES = r'f\d+'`. -/
def findFilterMatches (l : List Char) : List String :=
  findFilterMatchesF l.length l

/-- `set(re.findall(self._RE_FILTER_MATCHES, expression))`: the set of filter
ids referenced in the expression, duplicates collapsed (the spec's
`extract_referenced_ids`). -/
def extract_referenced_ids (expression : String) : Finset String :=
  (findFilterMatches expression.data).toFinset

/-- Python `str.split(', ')` at the character level: the fields between
non-overlapping occurrences of the two-character separator, scanned left to
right.  Splitting the empty string yields `[[]]` (one empty field), exactly as
Python's `str.split` with an explicit separator does. -/
def splitCommaSpace : List Char → List (List Char)
  | [] => [[]]
  | ',' :: ' ' :: rest => [] :: splitCommaSpace rest
  | c :: rest =>
    match splitCommaSpace rest with
    | [] => [[c]]
    | f :: fs => (c :: f) :: fs

/-- `selected_tags.split(', ')` as a list of strings. -/
def pySplitCS (s : String) : List String :=
  (splitCommaSpace s.data).map List.asString

/-- Member names shared by the operation enums of `query_creator.py`
(`OperationOptions` / `StringOperationOptions` / `NumberOperationOptions` /
`DateOperationOptions` / `KnimeToMdHOperationsMap`). -/
inductive OperationName
  | TAG_EXISTS
  | TAG_NOT_EXISTS
  | VALUE_EMPTY
  | VALUE_NOT_EMPTY
  | VALUE_CONTAINS
  | VALUE_NOT_CONTAINS
  | VALUE_IS_EQUAL
  | VALUE_IS_NOT_EQUAL
  | VALUE_IS_GREATER
  | VALUE_IS_SMALLER
  deriving DecidableEq

/-- `KnimeToMdHOperationsMap`: mapping of KNIME operations to MdH operations
(`getattr(KnimeToMdHOperationsMap, name)` on a member name, total because the
operation parameters range over enum member names). -/
def KnimeToMdHOperationsMap : OperationName → String
  | .TAG_EXISTS => "EXISTS"
  | .TAG_NOT_EXISTS => "NOT_EXISTS"
  | .VALUE_EMPTY => "EMPTY"
  | .VALUE_NOT_EMPTY => "NOT_EMPTY"
  | .VALUE_CONTAINS => "CONTAINS"
  | .VALUE_NOT_CONTAINS => "NOT_CONTAINS"
  | .VALUE_IS_EQUAL => "EQUAL"
  | .VALUE_IS_NOT_EQUAL => "NOT_EQUAL"
  | .VALUE_IS_GREATER => "GREATER"
  | .VALUE_IS_SMALLER => "SMALLER"

/-- `StringOperationOptions`, members in declaration order. -/
def StringOperationOptions : List OperationName :=
  [.TAG_EXISTS, .TAG_NOT_EXISTS, .VALUE_EMPTY, .VALUE_NOT_EMPTY,
   .VALUE_CONTAINS, .VALUE_NOT_CONTAINS, .VALUE_IS_EQUAL, .VALUE_IS_NOT_EQUAL]

/-- `NumberOperationOptions`, members in declaration order. -/
def NumberOperationOptions : List OperationName :=
  [.TAG_EXISTS, .TAG_NOT_EXISTS, .VALUE_EMPTY, .VALUE_NOT_EMPTY,
   .VALUE_IS_EQUAL, .VALUE_IS_NOT_EQUAL, .VALUE_IS_GREATER, .VALUE_IS_SMALLER]

/-- `DateOperationOptions`, members in declaration order. -/
def DateOperationOptions : List OperationName :=
  [.VALUE_EMPTY, .VALUE_NOT_EMPTY, .VALUE_IS_EQUAL, .VALUE_IS_NOT_EQUAL,
   .VALUE_IS_GREATER, .VALUE_IS_SMALLER]

/-- Label used by the operation-set table of spec section 3 for each operation
enum member (the code's `OperationOptions` descriptions use the same words:
`exists`, `not exists`, `value is empty`, and so on). -/
def specOperationLabel : OperationName → String
  | .TAG_EXISTS => "exists"
  | .TAG_NOT_EXISTS => "not-exists"
  | .VALUE_EMPTY => "empty"
  | .VALUE_NOT_EMPTY => "not-empty"
  | .VALUE_CONTAINS => "contains"
  | .VALUE_NOT_CONTAINS => "not-contains"
  | .VALUE_IS_EQUAL => "equal"
  | .VALUE_IS_NOT_EQUAL => "not-equal"
  | .VALUE_IS_GREATER => "greater"
  | .VALUE_IS_SMALLER => "smaller"

/-- STRING row of the operation-set table in spec section 3, verbatim. -/
def specStringOperations : List String :=
  ["exists", "not-exists", "empty", "not-empty",
   "contains", "not-contains", "equal", "not-equal"]

/-- NUMBER row of the operation-set table in spec section 3, verbatim. -/
def specNumberOperations : List String :=
  ["exists", "not-exists", "empty", "not-empty",
   "equal", "not-equal", "greater", "smaller"]

/-- DATE row of the operation-set table in spec section 3, verbatim. -/
def specDateOperations : List String :=
  ["empty", "not-empty", "equal", "not-equal", "greater", "smaller"]

/-- Operation sub-group of one filter (the `string` / `number` / `date`
parameter group): the chosen operation enum member name and the target
parameter in its `str(...)` form. -/
structure OperationGroup where
  operation : OperationName
  target : String
  deriving DecidableEq

/-- One filter parameter group `f{i}` as injected by
`inject_filter_parameters`: `value_type` holds a `TagTypeOptions` member name
(`STRING` / `NUMBER` / `DATE`), `tag` the metadata tag (empty means the slot
is inactive), and the three operation sub-groups. -/
structure Filter where
  value_type : String
  tag : String
  date : OperationGroup
  number : OperationGroup
  string : OperationGroup
  deriving DecidableEq

/-- The `FilterConfiguration` parameter group: `limit` and `offset` are
`IntParameter`s with `min_value=0`, hence naturals. -/
structure FilterConfiguration where
  filter_logic : String
  selected_tags : String
  limit : Nat
  offset : Nat
  only_count : Bool
  deriving DecidableEq

/-- Configuration snapshot of one `MetadataQueryCreatorNode` instance:
the `filter_configuration` group plus `vars(self)` as an insertion-ordered
association list of instance attributes (after `__init__` these are exactly
the slot attributes `f0`, `f1`, ...). -/
structure NodeState where
  filter_configuration : FilterConfiguration
  vars_ : List (String × Filter)
  deriving DecidableEq

/-- One entry of the `filters` list of the query dict built by `execute`. -/
structure CompiledFilter where
  tag : String
  value_type : String
  operation : String
  target : String
  deriving DecidableEq

/-- The query dict assembled by `execute`. -/
structure Query where
  filter_logic : String
  selected_tags : List String
  limit : Option Nat
  offset : Nat
  only_count : Bool
  filters : List CompiledFilter
  deriving DecidableEq

/-- Modelled from the spec: `MdHMetadataQueryPortObjectSpec` is imported by
`query_creator.py` from `ports/metadata_query.py` but is not declared in the
provided sources; per the spec it is the port spec wrapping the port type id. -/
structure MdHMetadataQueryPortObjectSpec where
  id : String
  deriving DecidableEq

/-- Modelled from the spec: the id of `METADATA_QUERY_TYPE`, the port type
registered in `ports/metadata_query.py` under the name
`PortType.MdHMetadataQueryPortObject`. -/
def METADATA_QUERY_TYPE_id : String := "PortType.MdHMetadataQueryPortObject"

/-- The port object returned by `execute`: the port spec plus the payload
dict `{FlowVariables.QUERY: query}`, which carries exactly the query
descriptor (the key constant `FlowVariables.QUERY` is not declared in the
provided sources, so the single-key dict is modelled as the `query` field). -/
structure MdHMetadataQueryPortObject where
  spec : MdHMetadataQueryPortObjectSpec
  query : Query
  deriving DecidableEq

/-- Host execution context handed to `execute`; the node never reads it. -/
structure ExecutionContext where
  ctx_id : Nat
  deriving DecidableEq

/-- Modelled from the spec: `Messages.QUERY_VALID_FILTER_LOGIC` is referenced
by `query_creator.py` but not declared in the provided `utils/message.py`;
per the spec it is a user-addressable message identifying the offending slot,
formatted with the slot key and the filter logic
(`.format(filter_key=..., filter_logic=...)`). -/
def QUERY_VALID_FILTER_LOGIC (filter_key filter_logic : String) : String :=
  "Please reference filter " ++ filter_key ++ " in the filter logic " ++ filter_logic

/-- `MetadataQueryCreatorNode._MAX_NUM_FILTERS`. -/
def MAX_NUM_FILTERS : Nat := 20

/-- Attribute key `f{i}` used by `setattr(self, f'f{i}', filter)`. -/
def fKey (i : Nat) : String := "f" ++ toString i

/-- Slot indices created by `__init__`: index 0 first, then the loop
`for i in range(1, self._MAX_NUM_FILTERS + 1)`. -/
def initIndices : List Nat := 0 :: List.range' 1 MAX_NUM_FILTERS

/-- Instance attribute keys present in `vars(self)` after `__init__`,
in insertion order. -/
def initKeys : List String := initIndices.map fKey

/-- `vars(self)` after `__init__`, with slot `i` configured as `slots i`. -/
def nodeVars (slots : Nat → Filter) : List (String × Filter) :=
  initIndices.map (fun i => (fKey i, slots i))

/-- `MetadataQueryCreatorNode._get_filters`: walk `vars(self)` in insertion
order; skip keys not starting with `f`; run `int(filter_key[1:])` under
`contextlib.suppress(ValueError)` with the result discarded; skip filters
whose `tag` is empty; collect the remaining `(filter_key, filter)` pairs. -/
def _get_filters : List (String × Filter) → List (String × Filter)
  | [] => []
  | (filter_key, filter) :: rest =>
    if pyStartsWith filter_key "f" then
      let _ := pyIntParse (filter_key.drop 1)
      if filter.tag = "" then
        _get_filters rest
      else
        (filter_key, filter) :: _get_filters rest
    else
      _get_filters rest

/-- `MetadataQueryCreatorNode.configure`: for every active filter whose key is
not among the referenced ids, call `config_context.set_warning` with the
formatted message; always return the port spec.  The configuration context is
modelled by its observable effect, the list of `set_warning` calls in order. -/
def configure (st : NodeState) : List String × MdHMetadataQueryPortObjectSpec :=
  let filter_logic := st.filter_configuration.filter_logic
  let filter_matches := extract_referenced_ids filter_logic
  let warnings :=
    ((_get_filters st.vars_).filter (fun kv => decide (kv.1 ∉ filter_matches))).map
      (fun kv => QUERY_VALID_FILTER_LOGIC kv.1 filter_logic)
  (warnings, ⟨METADATA_QUERY_TYPE_id⟩)

/-- Operation group selected by `execute` for one filter: start from
`filter.string`, replace by `filter.number` when `value_type == 'NUMBER'`,
replace by `filter.date` when `value_type == 'DATE'`. -/
def groupFor (filter : Filter) : OperationGroup :=
  let operation_group := filter.string
  let operation_group :=
    if filter.value_type = "NUMBER" then filter.number else operation_group
  if filter.value_type = "DATE" then filter.date else operation_group

/-- The dict appended to `query['filters']` by `execute` for one filter:
`tag`, `value_type`, the MdH operation code obtained via
`getattr(KnimeToMdHOperationsMap, operation_group.operation)`, and
`str(operation_group.target)` (targets are modelled in string form, so `str`
is the identity here). -/
def compileOne (filter : Filter) : CompiledFilter :=
  { tag := filter.tag
    value_type := filter.value_type
    operation := KnimeToMdHOperationsMap (groupFor filter).operation
    target := (groupFor filter).target }

/-- Loop body of `execute` over `self._get_filters()`: raise `RuntimeError`
with the formatted message at the first filter key not in `filter_matches`,
otherwise append the compiled filter dicts in order. -/
def compileFilters (filter_matches : Finset String) (filter_logic : String) :
    List (String × Filter) → Except String (List CompiledFilter)
  | [] => .ok []
  | (filter_key, filter) :: rest =>
    if filter_key ∈ filter_matches then
      match compileFilters filter_matches filter_logic rest with
      | .error e => .error e
      | .ok fs => .ok (compileOne filter :: fs)
    else
      .error (QUERY_VALID_FILTER_LOGIC filter_key filter_logic)

/-- `MetadataQueryCreatorNode.execute`: build the query dict from the
configuration values (`selected_tags.split(', ')`, the `limit != 0` sentinel
substitution), validate every active filter against the referenced ids
(raising on the first violation), append the compiled filters, and wrap the
result in the port object.  `exec_context` is never read by the source. -/
def execute (st : NodeState) (exec_context : ExecutionContext) :
    Except String MdHMetadataQueryPortObject :=
  let filter_logic := st.filter_configuration.filter_logic
  let selected_tags := st.filter_configuration.selected_tags
  let limit := st.filter_configuration.limit
  let offset := st.filter_configuration.offset
  let only_count := st.filter_configuration.only_count
  let filter_matches := extract_referenced_ids filter_logic
  match compileFilters filter_matches filter_logic (_get_filters st.vars_) with
  | .error e => .error e
  | .ok filters =>
    .ok
      { spec := ⟨METADATA_QUERY_TYPE_id⟩
        query :=
          { filter_logic := filter_logic
            selected_tags := pySplitCS selected_tags
            limit := if limit ≠ 0 then some limit else none
            offset := offset
            only_count := only_count
            filters := filters } }

/-- Operation group in its freshly injected state (default target). -/
def exampleGroup : OperationGroup :=
  { operation := .VALUE_IS_EQUAL, target := "" }

/-- An untouched slot: the tag is empty, so the slot is inactive. -/
def inactiveFilter : Filter :=
  { value_type := "STRING", tag := "", date := exampleGroup, number := exampleGroup,
    string := exampleGroup }

/-- Example active STRING slot: tag `FileType`, operation contains, target `pdf`. -/
def filterA : Filter :=
  { value_type := "STRING", tag := "FileType", date := exampleGroup, number := exampleGroup,
    string := { operation := .VALUE_CONTAINS, target := "pdf" } }

/-- Example active NUMBER slot: tag `FileSize`, operation greater, target `1000`. -/
def filterB : Filter :=
  { value_type := "NUMBER", tag := "FileSize", date := exampleGroup,
    number := { operation := .VALUE_IS_GREATER, target := "1000" },
    string := exampleGroup }

/-- Slot assignment with `f0` and `f1` active, all other slots untouched. -/
def slotsAB (i : Nat) : Filter :=
  if i = 0 then filterA else if i = 1 then filterB else inactiveFilter

/-- Slot assignment with only `f0` active. -/
def slotsA (i : Nat) : Filter :=
  if i = 0 then filterA else inactiveFilter

/-- Node state from configuration scalars and a slot assignment. -/
def mkState (logic tags : String) (limit offset : Nat) (oc : Bool)
    (slots : Nat → Filter) : NodeState :=
  { filter_configuration :=
      { filter_logic := logic, selected_tags := tags, limit := limit,
        offset := offset, only_count := oc }
    vars_ := nodeVars slots }

/-- An execution context value. -/
def ctx0 : ExecutionContext := ⟨0⟩

/-- A second, distinct execution context value. -/
def ctx1 : ExecutionContext := ⟨1⟩

/-- Configuration with `f0` and `f1` active but a filter logic referencing
only `f0`: slot `f1` is missing from the logic. -/
def stMissing : NodeState := mkState "f0" "" 0 0 false slotsAB

/-- Configuration with only `f0` active and a filter logic `f0 and f5` that
also references the inactive slot `f5` (a dangling reference). -/
def stDangling : NodeState := mkState "f0 and f5" "" 0 0 false slotsA

/-- Configuration with only `f0` active, logic `f0`, empty `selected_tags`
and `limit = 0`. -/
def stEmptyTags : NodeState := mkState "f0" "" 0 0 false slotsA

/-- Port object produced by `execute` on `stEmptyTags`. -/
def poEmptyTags : MdHMetadataQueryPortObject :=
  { spec := ⟨METADATA_QUERY_TYPE_id⟩
    query :=
      { filter_logic := "f0", selected_tags := [""], limit := none, offset := 0,
        only_count := false, filters := [compileOne filterA] } }

/-- End-to-end configuration of spec section 8: slots `f0` and `f1` active,
logic `f0 and f1`, `selected_tags = "FileType, FileSize"`, `limit = 10`. -/
def stScenario : NodeState := mkState "f0 and f1" "FileType, FileSize" 10 0 false slotsAB

/-- Port object produced by `execute` on `stScenario`. -/
def poScenario : MdHMetadataQueryPortObject :=
  { spec := ⟨METADATA_QUERY_TYPE_id⟩
    query :=
      { filter_logic := "f0 and f1", selected_tags := ["FileType", "FileSize"],
        limit := some 10, offset := 0, only_count := false,
        filters := [compileOne filterA, compileOne filterB] } }

/-! Helper lemmas shared by the claim theorems. -/

/-- A key of the form `f{i}` starts with `f`. -/
theorem pyStartsWith_fKey (i : Nat) : pyStartsWith (fKey i) "f" = true := by
  unfold pyStartsWith fKey
  rw [String.data_append]
  exact List.isPrefixOf_iff_prefix.mpr (List.prefix_append _ _)

/-- The suppressed `int(filter_key[1:])` has no effect: `_get_filters` is the
plain filter on keys starting with `f` and non-empty tags. -/
theorem _get_filters_eq_filter (vars_ : List (String × Filter)) :
    _get_filters vars_ =
      vars_.filter (fun kv => pyStartsWith kv.1 "f" && !(kv.2.tag == "")) := by
  induction vars_ with
  | nil => rfl
  | cons kv rest ih =>
    obtain ⟨k, f⟩ := kv
    by_cases hs : pyStartsWith k "f" = true
    · by_cases ht : f.tag = ""
      · simp [_get_filters, hs, ht, ih, List.filter_cons]
      · simp [_get_filters, hs, ht, ih, List.filter_cons]
    · simp [_get_filters, hs, ih, List.filter_cons, eq_false_of_ne_true hs]

/-- `_get_filters` on slots keyed `f{i}` keeps exactly the non-empty-tag
slots, preserving the index order. -/
theorem _get_filters_map_fKey (slots : Nat → Filter) :
    ∀ l : List Nat,
      _get_filters (l.map (fun i => (fKey i, slots i))) =
        (l.filter (fun i => !((slots i).tag == ""))).map (fun i => (fKey i, slots i))
  | [] => rfl
  | i :: rest => by
    have ih := _get_filters_map_fKey slots rest
    by_cases ht : (slots i).tag = ""
    · simp [_get_filters, pyStartsWith_fKey, ht, ih, List.filter_cons]
    · simp [_get_filters, pyStartsWith_fKey, ht, ih, List.filter_cons]

/-- When every listed filter key is referenced, the `execute` loop compiles
all filters in order. -/
theorem compileFilters_ok (fm : Finset String) (fl : String) :
    ∀ l : List (String × Filter), (∀ kv ∈ l, kv.1 ∈ fm) →
      compileFilters fm fl l = .ok (l.map (fun kv => compileOne kv.2))
  | [], _ => rfl
  | (k, f) :: rest, h => by
    have hk : k ∈ fm := h (k, f) (List.mem_cons_self _ _)
    have hrest := compileFilters_ok fm fl rest (fun kv hkv => h kv (List.mem_cons_of_mem _ hkv))
    simp [compileFilters, hk, hrest]

/-- The `execute` loop raises at the first filter key that is not
referenced, with the message formatted from that key. -/
theorem compileFilters_error (fm : Finset String) (fl : String) :
    ∀ l : List (String × Filter), ∀ k₀ : String, ∀ f₀ : Filter,
      l.find? (fun kv => decide (kv.1 ∉ fm)) = some (k₀, f₀) →
      compileFilters fm fl l = .error (QUERY_VALID_FILTER_LOGIC k₀ fl)
  | [], k₀, f₀, h => by simp [List.find?] at h
  | (k, f) :: rest, k₀, f₀, h => by
    by_cases hk : k ∈ fm
    · rw [List.find?_cons_of_neg _ (by simp [hk])] at h
      have hrest := compileFilters_error fm fl rest k₀ f₀ h
      simp [compileFilters, hk, hrest]
    · rw [List.find?_cons_of_pos _ (by simp [hk])] at h
      injection h with h'
      cases h'
      simp [compileFilters, hk]

/-- Any successful run of the `execute` loop yields exactly the compiled
filters of the listed slots, in order. -/
theorem compileFilters_ok_shape (fm : Finset String) (fl : String) :
    ∀ l : List (String × Filter), ∀ fs : List CompiledFilter,
      compileFilters fm fl l = .ok fs → fs = l.map (fun kv => compileOne kv.2)
  | [], fs, h => by
    simp only [compileFilters, Except.ok.injEq] at h
    simp [← h]
  | (k, f) :: rest, fs, h => by
    by_cases hk : k ∈ fm
    · rcases hrest : compileFilters fm fl rest with e | fs'
      · rw [compileFilters, if_pos hk, hrest] at h
        cases h
      · rw [compileFilters, if_pos hk, hrest] at h
        simp only [Except.ok.injEq] at h
        have := compileFilters_ok_shape fm fl rest fs' hrest
        simp [← h, this]
    · rw [compileFilters, if_neg hk] at h
      cases h

/-- Shape of any successful `execute`: the compiled filters come from a
successful loop run, and the port object is the assembled descriptor. -/
theorem execute_ok_query (st : NodeState) (c : ExecutionContext)
    (po : MdHMetadataQueryPortObject) (h : execute st c = .ok po) :
    ∃ fs : List CompiledFilter,
      compileFilters (extract_referenced_ids st.filter_configuration.filter_logic)
          st.filter_configuration.filter_logic (_get_filters st.vars_) = .ok fs ∧
      po = { spec := ⟨METADATA_QUERY_TYPE_id⟩
             query :=
               { filter_logic := st.filter_configuration.filter_logic
                 selected_tags := pySplitCS st.filter_configuration.selected_tags
                 limit := if st.filter_configuration.limit ≠ 0 then
                            some st.filter_configuration.limit else none
                 offset := st.filter_configuration.offset
                 only_count := st.filter_configuration.only_count
                 filters := fs } } := by
  simp only [execute] at h
  rcases hcf : compileFilters (extract_referenced_ids st.filter_configuration.filter_logic)
      st.filter_configuration.filter_logic (_get_filters st.vars_) with e | fs
  · rw [hcf] at h
    cases h
  · rw [hcf] at h
    simp only [Except.ok.injEq] at h
    exact ⟨fs, rfl, h.symm⟩

/-- Every token produced by the `f` + digits scan is `f` followed by a
non-empty run of digit characters. -/
theorem findFilterMatchesF_shape :
    ∀ fuel : Nat, ∀ l : List Char, ∀ x ∈ findFilterMatchesF fuel l,
      ∃ ds : List Char, ds ≠ [] ∧ (∀ c ∈ ds, c.isDigit) ∧ x = ('f' :: ds).asString
  | 0, l, x, hx => by simp [findFilterMatchesF] at hx
  | fuel + 1, [], x, hx => by simp [findFilterMatchesF] at hx
  | fuel + 1, c :: rest, x, hx => by
    by_cases hc : c = 'f'
    · rw [findFilterMatchesF, if_pos hc] at hx
      by_cases hempty : rest.takeWhile Char.isDigit = []
      · rw [if_pos hempty] at hx
        exact findFilterMatchesF_shape fuel rest x hx
      · rw [if_neg hempty] at hx
        rcases List.mem_cons.mp hx with h | h
        · exact ⟨rest.takeWhile Char.isDigit, hempty,
            fun ch hch => List.mem_takeWhile_imp hch, h⟩
        · exact findFilterMatchesF_shape fuel _ x h
    · rw [findFilterMatchesF, if_neg hc] at hx
      exact findFilterMatchesF_shape fuel rest x hx

/-! Claim theorems. -/

/-- C5: `extract_referenced_ids` returns the set (duplicates collapsed) of
substrings matching `f` followed by one or more digits, with no
boolean-grammar check: the expression `f0 or (f1 and not f2)` yields the set
of `f0`, `f1` and `f2`; `f0` yields the singleton `f0`; the empty expression
yields the empty set; and every member of the returned set is `f` followed
by a non-empty run of digits. -/
theorem extract_referenced_ids_matches_pattern :
    extract_referenced_ids "f0 or (f1 and not f2)" = {"f0", "f1", "f2"} ∧
    extract_referenced_ids "f0" = {"f0"} ∧
    extract_referenced_ids "" = ∅ ∧
    ∀ s : String, ∀ x ∈ extract_referenced_ids s,
      ∃ ds : List Char, ds ≠ [] ∧ (∀ c ∈ ds, c.isDigit) ∧ x = ('f' :: ds).asString := by
  refine ⟨by decide, by decide, by decide, ?_⟩
  intro s x hx
  exact findFilterMatchesF_shape s.data.length s.data x (List.mem_toFinset.mp hx)

/-- Witness for C5: the hypothesis of the universally quantified part holds
at the concrete expression `f0` with token `f0`, and the conclusion follows
by applying the theorem there. -/
theorem extract_referenced_ids_matches_pattern_witness :
    "f0" ∈ extract_referenced_ids "f0" ∧
    ∃ ds : List Char, ds ≠ [] ∧ (∀ c ∈ ds, c.isDigit) ∧ "f0" = ('f' :: ds).asString :=
  ⟨by decide, extract_referenced_ids_matches_pattern.2.2.2 "f0" "f0" (by decide)⟩

/-- C6: for every slot configuration, `_get_filters` (the spec's
`get_active_slots`) returns exactly the slots whose tag is a non-empty
string, in ascending slot-id order: it equals the ascending index range
`0 .. _MAX_NUM_FILTERS`, filtered to non-empty tags, mapped to the keyed
slots.  The function only reads the slots, so the model is a pure function
of the configuration. -/
theorem get_active_slots_ordered (slots : Nat → Filter) :
    _get_filters (nodeVars slots) =
      ((List.range (MAX_NUM_FILTERS + 1)).filter (fun i => !((slots i).tag == ""))).map
        (fun i => (fKey i, slots i)) := by
  have hidx : initIndices = List.range (MAX_NUM_FILTERS + 1) := by decide
  unfold nodeVars
  rw [hidx]
  exact _get_filters_map_fKey slots _

/-- C10: which attributes `_get_filters` keeps depends only on the key
starting with the letter `f` and the value having a non-empty tag; the
suppressed `int(filter_key[1:])` parse never skips a key, so an attribute
with a non-numeric suffix such as `fNotANumber` is still treated as a
filter slot. -/
theorem get_filters_keeps_non_numeric_suffixes :
    (∀ vars_ : List (String × Filter),
        _get_filters vars_ =
          vars_.filter (fun kv => pyStartsWith kv.1 "f" && !(kv.2.tag == ""))) ∧
    _get_filters [("fNotANumber", filterA)] = [("fNotANumber", filterA)] :=
  ⟨_get_filters_eq_filter, by decide⟩

/-- C8 (code bug): `__init__` creates slot `f0` and then one slot per index
in `range(1, _MAX_NUM_FILTERS + 1)`, so a fresh builder pre-allocates
`_MAX_NUM_FILTERS + 1 = 21` filter slots `f0` .. `f20` — one more than the
maximum of 20 stated by the class docstring and by the claim. -/
theorem init_preallocates_max_plus_one_slots :
    initKeys.length = MAX_NUM_FILTERS + 1 ∧
    MAX_NUM_FILTERS = 20 ∧
    initKeys.getLast? = some "f20" := by
  decide

/-- C1: whenever some active slot key is missing from the referenced ids of
`filter_logic` (the first such slot being `k₀`), the check phase still
returns the port spec and reports the formatted warning for every missing
active slot, while the build phase raises the fatal error formatted from the
first missing slot and produces no descriptor. -/
theorem check_warns_build_raises_on_missing_reference
    (st : NodeState) (c : ExecutionContext) (k₀ : String) (f₀ : Filter)
    (hfind : (_get_filters st.vars_).find?
        (fun kv => decide (kv.1 ∉ extract_referenced_ids st.filter_configuration.filter_logic))
        = some (k₀, f₀)) :
    (configure st).2 = ⟨METADATA_QUERY_TYPE_id⟩ ∧
    (∀ kv ∈ _get_filters st.vars_,
        kv.1 ∉ extract_referenced_ids st.filter_configuration.filter_logic →
        QUERY_VALID_FILTER_LOGIC kv.1 st.filter_configuration.filter_logic ∈ (configure st).1) ∧
    execute st c = .error
      (QUERY_VALID_FILTER_LOGIC k₀ st.filter_configuration.filter_logic) := by
  refine ⟨rfl, ?_, ?_⟩
  · intro kv hkv hmiss
    simp only [configure]
    exact List.mem_map_of_mem _ (List.mem_filter.mpr ⟨hkv, by simpa using hmiss⟩)
  · have herr := compileFilters_error
      (extract_referenced_ids st.filter_configuration.filter_logic)
      st.filter_configuration.filter_logic (_get_filters st.vars_) k₀ f₀ hfind
    simp [execute, herr]

/-- Witness for C1: in the configuration with `f0` and `f1` active and logic
`f0`, the first (and only) missing slot is `f1`; check returns the spec and
logs the warning for `f1`, and build fails with the error for `f1`. -/
theorem check_warns_build_raises_on_missing_reference_witness :
    (configure stMissing).2 = ⟨METADATA_QUERY_TYPE_id⟩ ∧
    QUERY_VALID_FILTER_LOGIC "f1" "f0" ∈ (configure stMissing).1 ∧
    execute stMissing ctx0 = .error (QUERY_VALID_FILTER_LOGIC "f1" "f0") := by
  have h := check_warns_build_raises_on_missing_reference stMissing ctx0 "f1" filterB
    (by decide)
  exact ⟨h.1, h.2.1 ("f1", filterB) (by decide) (by decide), h.2.2⟩

/-- C2: when every active slot is referenced in `filter_logic`, neither
phase rejects the configuration — even if the logic also references inactive
slots (dangling references): check logs no warning, and build succeeds with
a descriptor whose filters are exactly the compiled active slots. -/
theorem dangling_reference_accepted
    (st : NodeState) (c : ExecutionContext)
    (hall : ∀ kv ∈ _get_filters st.vars_,
        kv.1 ∈ extract_referenced_ids st.filter_configuration.filter_logic) :
    (configure st).1 = [] ∧
    execute st c = .ok
      { spec := ⟨METADATA_QUERY_TYPE_id⟩
        query :=
          { filter_logic := st.filter_configuration.filter_logic
            selected_tags := pySplitCS st.filter_configuration.selected_tags
            limit := if st.filter_configuration.limit ≠ 0 then
                       some st.filter_configuration.limit else none
            offset := st.filter_configuration.offset
            only_count := st.filter_configuration.only_count
            filters := (_get_filters st.vars_).map (fun kv => compileOne kv.2) } } := by
  constructor
  · simp only [configure]
    have hnil : (_get_filters st.vars_).filter
        (fun kv => decide
          (kv.1 ∉ extract_referenced_ids st.filter_configuration.filter_logic)) = [] := by
      rw [List.filter_eq_nil_iff]
      intro kv hkv
      simpa using hall kv hkv
    rw [hnil]
    rfl
  · have hok := compileFilters_ok
      (extract_referenced_ids st.filter_configuration.filter_logic)
      st.filter_configuration.filter_logic (_get_filters st.vars_) hall
    simp [execute, hok]

/-- Witness for C2: with only `f0` active and logic `f0 and f5` — where `f5`
is a dangling reference to an inactive slot — check logs nothing and build
succeeds with the single compiled filter for `f0`. -/
theorem dangling_reference_accepted_witness :
    (configure stDangling).1 = [] ∧
    execute stDangling ctx0 = .ok
      { spec := ⟨METADATA_QUERY_TYPE_id⟩
        query :=
          { filter_logic := stDangling.filter_configuration.filter_logic
            selected_tags := pySplitCS stDangling.filter_configuration.selected_tags
            limit := if stDangling.filter_configuration.limit ≠ 0 then
                       some stDangling.filter_configuration.limit else none
            offset := stDangling.filter_configuration.offset
            only_count := stDangling.filter_configuration.only_count
            filters := (_get_filters stDangling.vars_).map (fun kv => compileOne kv.2) } } :=
  dangling_reference_accepted stDangling ctx0 (by decide)

/-- C3 counterexample: on the configuration with `selected_tags` equal to
the empty string, build succeeds and the descriptor's `selected_tags` is the
one-element sequence holding the empty string — not the empty sequence the
claim states, because Python `str.split` with an explicit separator never
returns an empty list. -/
theorem empty_selected_tags_yields_singleton :
    execute stEmptyTags ctx0 = .ok poEmptyTags ∧
    poEmptyTags.query.selected_tags = [""] ∧
    ([""] : List String) ≠ [] :=
  ⟨rfl, rfl, by decide⟩

/-- C3 (amended): the compiled descriptor's `selected_tags` is the raw input
split on the literal separator `, `; the input `FileName, FileSize` yields
`FileName` and `FileSize` in order, and the empty input yields the
one-element sequence holding the empty string. -/
theorem selected_tags_split_on_comma_space :
    (∀ (st : NodeState) (c : ExecutionContext) (po : MdHMetadataQueryPortObject),
        execute st c = .ok po →
        po.query.selected_tags = pySplitCS st.filter_configuration.selected_tags) ∧
    pySplitCS "FileName, FileSize" = ["FileName", "FileSize"] ∧
    pySplitCS "" = [""] := by
  refine ⟨?_, by decide, by decide⟩
  intro st c po h
  obtain ⟨fs, _, rfl⟩ := execute_ok_query st c po h
  rfl

/-- Witness for C3: the universally quantified part applied to the concrete
successful build on `stEmptyTags`. -/
theorem selected_tags_split_on_comma_space_witness :
    execute stEmptyTags ctx0 = .ok poEmptyTags ∧
    poEmptyTags.query.selected_tags = pySplitCS stEmptyTags.filter_configuration.selected_tags :=
  ⟨rfl, selected_tags_split_on_comma_space.1 stEmptyTags ctx0 poEmptyTags rfl⟩

/-- C4: in every successful build, the descriptor's limit is `none` when the
configured limit is `0` and the configured value otherwise; and the
substitution is never a validation failure — replacing the configured limit
by any value leaves the build successful. -/
theorem limit_zero_means_unbounded
    (st : NodeState) (c : ExecutionContext) (po : MdHMetadataQueryPortObject)
    (h : execute st c = .ok po) :
    (st.filter_configuration.limit = 0 → po.query.limit = none) ∧
    (st.filter_configuration.limit ≠ 0 → po.query.limit = some st.filter_configuration.limit) ∧
    ∀ n : Nat,
      (execute { st with filter_configuration :=
          { st.filter_configuration with limit := n } } c).isOk = true := by
  obtain ⟨fs, hcf, rfl⟩ := execute_ok_query st c po h
  refine ⟨fun h0 => by simp [h0], fun h0 => by simp [h0], ?_⟩
  intro n
  simp only [execute]
  rw [hcf]
  rfl

/-- Witness for C4: on the concrete successful build with `limit = 0` the
descriptor's limit is `none`, and the same configuration with `limit = 5`
still builds successfully. -/
theorem limit_zero_means_unbounded_witness :
    poEmptyTags.query.limit = none ∧
    (execute { stEmptyTags with filter_configuration :=
        { stEmptyTags.filter_configuration with limit := 5 } } ctx0).isOk = true := by
  have h := limit_zero_means_unbounded stEmptyTags ctx0 poEmptyTags rfl
  exact ⟨h.1 rfl, h.2.2 5⟩

/-- C7: the allowed operation set of each value type equals the
section 3 table of the spec (STRING: exists, not-exists, empty, not-empty,
contains, not-contains, equal, not-equal; NUMBER: exists, not-exists, empty,
not-empty, equal, not-equal, greater, smaller; DATE: empty, not-empty,
equal, not-equal, greater, smaller), and in every successful build the
operation code of each compiled filter is obtained by applying the
`KnimeToMdHOperationsMap` table to the operation of the group matching the
slot's value type. -/
theorem operation_tables_match_spec :
    StringOperationOptions.map specOperationLabel = specStringOperations ∧
    NumberOperationOptions.map specOperationLabel = specNumberOperations ∧
    DateOperationOptions.map specOperationLabel = specDateOperations ∧
    ∀ (st : NodeState) (c : ExecutionContext) (po : MdHMetadataQueryPortObject),
      execute st c = .ok po →
      po.query.filters.map CompiledFilter.operation =
        (_get_filters st.vars_).map
          (fun kv => KnimeToMdHOperationsMap (groupFor kv.2).operation) := by
  refine ⟨by decide, by decide, by decide, ?_⟩
  intro st c po h
  obtain ⟨fs, hcf, rfl⟩ := execute_ok_query st c po h
  have hshape := compileFilters_ok_shape
    (extract_referenced_ids st.filter_configuration.filter_logic)
    st.filter_configuration.filter_logic (_get_filters st.vars_) fs hcf
  subst hshape
  rw [List.map_map]
  rfl

/-- Witness for C7: the end-to-end scenario of spec section 8 builds
successfully and its two compiled filters carry the mapped operation codes
of their matching groups (`CONTAINS` for the STRING slot, `GREATER` for the
NUMBER slot). -/
theorem operation_tables_match_spec_witness :
    execute stScenario ctx0 = .ok poScenario ∧
    poScenario.query.filters.map CompiledFilter.operation =
      (_get_filters stScenario.vars_).map
        (fun kv => KnimeToMdHOperationsMap (groupFor kv.2).operation) :=
  ⟨rfl, operation_tables_match_spec.2.2.2 stScenario ctx0 poScenario rfl⟩

/-- C9: `execute` is deterministic — it reads nothing but the slot and
configuration snapshot, so two build invocations on the same snapshot
(under arbitrary execution contexts) return the same result, and when they
succeed the two descriptors agree field for field. -/
theorem execute_deterministic (st : NodeState) (c₁ c₂ : ExecutionContext) :
    execute st c₁ = execute st c₂ ∧
    ∀ po₁ po₂ : MdHMetadataQueryPortObject,
      execute st c₁ = .ok po₁ → execute st c₂ = .ok po₂ →
      po₁.query.filter_logic = po₂.query.filter_logic ∧
      po₁.query.selected_tags = po₂.query.selected_tags ∧
      po₁.query.limit = po₂.query.limit ∧
      po₁.query.offset = po₂.query.offset ∧
      po₁.query.only_count = po₂.query.only_count ∧
      po₁.query.filters = po₂.query.filters := by
  refine ⟨rfl, ?_⟩
  intro po₁ po₂ h₁ h₂
  have hsame : execute st c₁ = execute st c₂ := rfl
  have heq : (Except.ok po₁ : Except String MdHMetadataQueryPortObject) = .ok po₂ :=
    h₁.symm.trans (hsame.trans h₂)
  injection heq with hpo
  subst hpo
  exact ⟨rfl, rfl, rfl, rfl, rfl, rfl⟩

/-- Witness for C9: two builds of the section 8 scenario snapshot under two
distinct execution contexts coincide, and the descriptor fields agree. -/
theorem execute_deterministic_witness :
    execute stScenario ctx0 = execute stScenario ctx1 ∧
    poScenario.query.filter_logic = poScenario.query.filter_logic ∧
    poScenario.query.selected_tags = poScenario.query.selected_tags ∧
    poScenario.query.limit = poScenario.query.limit ∧
    poScenario.query.offset = poScenario.query.offset ∧
    poScenario.query.only_count = poScenario.query.only_count ∧
    poScenario.query.filters = poScenario.query.filters := by
  have h := execute_deterministic stScenario ctx0 ctx1
  exact ⟨h.1, h.2 poScenario poScenario rfl rfl⟩

end MdHQueryCreator
